import Mathlib

/-!
Verification of the multiplexing HTTP server (Shurik12/test_server).

Shallow embedding of the code under src/src/server/: the HTTP framing loop
and request parser of MultiplexingServer.cpp (ClientConnection), the JSON
request processor of RequestHandler.cpp, the connection counters of
Metrics.h, and the fd-to-connection bookkeeping of MultiplexingServer.cpp.

Byte buffers are modelled as List Char (one Char per byte; all wire data in
scope is ASCII).  C++ std::string::find / substr / stoul are modelled by
the functions below, faithful to their C++ semantics at the call sites.
-/

namespace TestServer

/-- Model of std::string::find(needle, 0) restricted to a suffix: first index
of the list at which the needle occurs as a prefix of the remaining list. -/
def findFromIdx (needle : List Char) : List Char → Option Nat
  | [] => if needle.isEmpty then some 0 else none
  | c :: rest =>
    if needle.isPrefixOf (c :: rest) then some 0
    else (findFromIdx needle rest).map (· + 1)

/-- Model of std::string::find(needle, pos): the first position at or after
pos where the needle occurs; none models std::string::npos. -/
def findFrom (needle hay : List Char) (pos : Nat) : Option Nat :=
  if pos ≤ hay.length then (findFromIdx needle (hay.drop pos)).map (· + pos)
  else none

theorem findFrom_ge {needle hay : List Char} {pos j : Nat}
    (h : findFrom needle hay pos = some j) : pos ≤ j := by
  unfold findFrom at h
  split at h
  · simp only [Option.map_eq_some'] at h
    obtain ⟨k, _, rfl⟩ := h
    omega
  · exact absurd h (by simp)

/-- ServerConfig::max_write_buffer_size (MultiplexingServer.h). -/
def maxWriteBufferSize : Nat := 65536

/-- A top-level member of the parsed request document, as far as
RequestHandler::parseJson inspects it: jint n models IsInt() with
GetInt() = n, jstr s models IsString() with GetString() = s, jother any
member for which both predicates are false. -/
inductive JMember where
  | jint (n : Int)
  | jstr (s : String)
  | jother
deriving DecidableEq

/-- The request document as inspected by parseJson: its top-level members in
order (rapidjson keeps duplicates; HasMember / operator[] use the first). -/
structure JDoc where
  fields : List (String × JMember)
deriving DecidableEq

/-- Outcome of rapidjson Parse on the (non-empty) request body: a parse error
(msg is the message chosen by parseJson's switch over the error code), a
document whose root is not an object, or an object document. -/
inductive ParseOutcome where
  | parseErr (msg : String)
  | notObject
  | obj (d : JDoc)
deriving DecidableEq

/-- doc.HasMember(k) combined with doc[k]: the first member named k. -/
def lookupField : List (String × JMember) → String → Option JMember
  | [], _ => none
  | (k', v) :: rest, k => if k' = k then some v else lookupField rest k

def getField (d : JDoc) (k : String) : Option JMember :=
  lookupField d.fields k

/-- struct UserData (RequestHandler.h lines 12-22). -/
structure UserData where
  id : Int
  name : String
  phone : String
  number : Int
deriving DecidableEq

/-- RequestHandler::parseJson (RequestHandler.cpp lines 20-132).  The inputs
are the emptiness of the raw body string and the rapidjson outcome on it;
the checks and error messages follow the source in order: empty input, parse
error, non-object root, then the id / name / phone / number member checks. -/
def parseJson (inputEmpty : Bool) (o : ParseOutcome) : Except String UserData :=
  if inputEmpty then .error "Empty JSON input"
  else
    match o with
    | .parseErr msg => .error msg
    | .notObject => .error "Expected JSON object"
    | .obj d =>
      match getField d "id" with
      | some (.jint i) =>
        match getField d "name" with
        | some (.jstr nm) =>
          match getField d "phone" with
          | some (.jstr ph) =>
            match getField d "number" with
            | some (.jint k) => .ok ⟨i, nm, ph, k⟩
            | _ => .error "Missing or invalid \x27number\x27 field"
          | _ => .error "Missing or invalid \x27phone\x27 field"
        | _ => .error "Missing or invalid \x27name\x27 field"
      | _ => .error "Missing or invalid \x27id\x27 field"

/-- RequestHandler::validateUserData (RequestHandler.cpp lines 134-152). -/
def validateUserData (d : UserData) : Bool :=
  if d.name = "" then false
  else if d.phone = "" then false
  else if d.id < 0 then false
  else true

/-- RequestHandler::increase (RequestHandler.cpp lines 189-195): returns
number + 1 (the sleep is timing only). -/
def increase (number : Int) : Int := number + 1

/-- A value of the response documents that generateJsonResponse or
generateErrorResponse builds. -/
inductive RVal where
  | rint (n : Int)
  | rstr (s : String)
  | rbool (b : Bool)
deriving DecidableEq

/-- A response document: members in insertion (AddMember) order, which is the
order the rapidjson Writer serializes. -/
def RDoc := List (String × RVal)
deriving DecidableEq

def lookupRField : RDoc → String → Option RVal
  | [], _ => none
  | (k', v) :: rest, k => if k' = k then some v else lookupRField rest k

/-- RequestHandler::generateJsonResponse (RequestHandler.cpp lines 154-171):
members id, name, phone, number, success=true in that order. -/
def generateJsonResponse (u : UserData) : RDoc :=
  [("id", .rint u.id), ("name", .rstr u.name), ("phone", .rstr u.phone),
   ("number", .rint u.number), ("success", .rbool true)]

/-- RequestHandler::generateErrorResponse (RequestHandler.cpp lines 173-187):
members error, success=false in that order. -/
def generateErrorResponse (msg : String) : RDoc :=
  [("error", .rstr msg), ("success", .rbool false)]

def hexDigitUpper (n : Nat) : String :=
  String.singleton ("0123456789ABCDEF".data.getD n '0')

/-- The escaping the rapidjson Writer applies inside JSON strings. -/
def escapeJsonChar (c : Char) : String :=
  if c = '"' then "\\\""
  else if c = '\\' then "\\\\"
  else if c = '\x08' then "\\b"
  else if c = '\x0c' then "\\f"
  else if c = '\n' then "\\n"
  else if c = '\r' then "\\r"
  else if c = '\t' then "\\t"
  else if c.toNat < 32 then
    "\\u00" ++ hexDigitUpper (c.toNat / 16) ++ hexDigitUpper (c.toNat % 16)
  else String.singleton c

def escapeJson (s : String) : String :=
  s.data.foldl (fun acc c => acc ++ escapeJsonChar c) ""

def renderVal : RVal → String
  | .rint n => toString n
  | .rstr s => "\"" ++ escapeJson s ++ "\""
  | .rbool b => if b then "true" else "false"

/-- Serialization of a response document by the rapidjson Writer (compact,
no spaces). -/
def render (d : RDoc) : String :=
  "\x7b" ++
    String.intercalate ","
      (d.map (fun p => "\"" ++ escapeJson p.1 ++ "\":" ++ renderVal p.2)) ++
    "\x7d"

/-- The mutable state of a RequestHandler (RequestHandler.h lines 72-77). -/
structure HandlerState where
  requests_processed : Nat
  successful_requests : Nat
  failed_requests : Nat
  total_numbers_sum : Int
  client_numbers_sum : List (String × Int)
deriving DecidableEq

/-- client_numbers_sum_[client_id] += v: unordered_map operator[] inserts a
zero-initialized entry when the key is absent, then += adds. -/
def mapAdd : List (String × Int) → String → Int → List (String × Int)
  | [], k, v => [(k, v)]
  | (k', v') :: rest, k, v =>
    if k' = k then (k', v' + v) :: rest else (k', v') :: mapAdd rest k v

/-- RequestHandler::getClientNumbersSum (RequestHandler.h lines 36-41): an
unordered_map find, returning the mapped value or 0.  find does not insert. -/
def getClientNumbersSum : List (String × Int) → String → Int
  | [], _ => 0
  | (k', v) :: rest, k => if k' = k then v else getClientNumbersSum rest k

/-- getClientNumbersSum together with the map after the call: the method only
reads the map (std::unordered_map::find under the lock), so the map component
is returned unchanged. -/
def getClientNumbersSumCall (m : List (String × Int)) (k : String) :
    Int × List (String × Int) :=
  (getClientNumbersSum m k, m)

/-- RequestHandler::processRequestInternal (RequestHandler.cpp lines 197-245).
Returns the new handler state and the response document handed to the writer.
The catch arm models every throw inside the try block (parseJson errors and
the validation error). -/
def processRequestInternal (st : HandlerState) (inputEmpty : Bool)
    (o : ParseOutcome) : HandlerState × RDoc :=
  let st1 := { st with requests_processed := st.requests_processed + 1 }
  match parseJson inputEmpty o with
  | .error msg =>
    ({ st1 with failed_requests := st1.failed_requests + 1 },
     generateErrorResponse msg)
  | .ok user_data =>
    if validateUserData user_data then
      let original_number := user_data.number
      let user_data2 := { user_data with number := increase user_data.number }
      let client_id := "user_" ++ toString user_data.id
      let st2 :=
        { st1 with
          total_numbers_sum := st1.total_numbers_sum + original_number,
          client_numbers_sum := mapAdd st1.client_numbers_sum client_id original_number }
      ({ st2 with successful_requests := st2.successful_requests + 1 },
       generateJsonResponse user_data2)
    else
      ({ st1 with failed_requests := st1.failed_requests + 1 },
       generateErrorResponse "Invalid user data")

/-- RequestHandler::processRequest (RequestHandler.cpp lines 247-250):
delegates to processRequestInternal. -/
def processRequest (st : HandlerState) (inputEmpty : Bool) (o : ParseOutcome) :
    HandlerState × RDoc :=
  processRequestInternal st inputEmpty o

/-!
Per-connection write path and response synthesis
(MultiplexingServer.cpp, ClientConnection).
-/

/-- The parts of a ClientConnection touched by sendResponse: the write buffer
and the active flag (MultiplexingServer.h lines 117-121). -/
structure ConnState where
  writeBuffer : List Char
  active : Bool
deriving DecidableEq

/-- Result of the non-blocking send(2) attempted inline by sendResponse; the
kernel's behaviour is external.  sent n models a return of n > 0 bytes,
wouldBlock models -1 with EAGAIN / EWOULDBLOCK, fatal models -1 with any
other errno (including EBADF on a closed fd). -/
inductive SendOutcome where
  | sent (n : Nat)
  | wouldBlock
  | fatal
deriving DecidableEq

/-- ClientConnection::sendResponse (MultiplexingServer.cpp lines 186-253):
append the response to the write buffer (no capacity check and no check of
the active flag appear in the source), then attempt one inline non-blocking
send when the buffer is non-empty: on success erase the sent prefix, on
would-block keep everything, on any other error set active to false.  The
epoll write-notification toggles are side effects outside this state. -/
def sendResponse (c : ConnState) (response : List Char) (out : SendOutcome) :
    ConnState :=
  let wb := c.writeBuffer ++ response
  if wb = [] then { c with writeBuffer := wb }
  else
    match out with
    | .sent n => { c with writeBuffer := wb.drop n }
    | .wouldBlock => { c with writeBuffer := wb }
    | .fatal => { writeBuffer := wb, active := false }

/-- Status text selection of ClientConnection::createHttpResponse
(MultiplexingServer.cpp lines 528-534): default "OK", overridden for
400 / 404 / 500. -/
def statusText (status_code : Int) : String :=
  if status_code = 400 then "Bad Request"
  else if status_code = 404 then "Not Found"
  else if status_code = 500 then "Internal Server Error"
  else "OK"

/-- ClientConnection::createHttpResponse (MultiplexingServer.cpp lines
522-554).  std::string::length() counts bytes, modelled by utf8ByteSize. -/
def createHttpResponse (content : String) (content_type : String)
    (status_code : Int) : String :=
  "HTTP/1.1 " ++ toString status_code ++ " " ++ statusText status_code ++ "\r\n" ++
  "Content-Type: " ++ content_type ++ "\r\n" ++
  "Content-Length: " ++ toString content.utf8ByteSize ++ "\r\n" ++
  "Connection: keep-alive\r\n" ++
  "Keep-Alive: timeout=30, max=1000\r\n" ++
  "Access-Control-Allow-Origin: *\r\n" ++
  "Access-Control-Allow-Methods: GET, POST, OPTIONS\r\n" ++
  "Access-Control-Allow-Headers: Content-Type\r\n" ++
  "\r\n" ++
  content

/-- The two connection counters of Metrics (Metrics.h lines 246-247):
connections_total is an atomic long, active_connections an atomic int. -/
structure MetricsConn where
  connections_total : Int
  active_connections : Int
deriving DecidableEq

/-- Metrics::incrementConnections (Metrics.h lines 30-34). -/
def incrementConnections (m : MetricsConn) : MetricsConn :=
  { connections_total := m.connections_total + 1,
    active_connections := m.active_connections + 1 }

/-- Metrics::decrementConnections (Metrics.h lines 35-39): guarded so the
gauge never goes below zero. -/
def decrementConnections (m : MetricsConn) : MetricsConn :=
  if 0 < m.active_connections then
    { m with active_connections := m.active_connections - 1 }
  else m

/-- The connection bookkeeping of MultiplexingServer: the keys of the
fd-to-connection map clients_ together with the two counters. -/
structure ServerConnState where
  clients : List Int
  metrics : MetricsConn
deriving DecidableEq

/-- Per accepted socket, MultiplexingServer::handleNewConnection
(MultiplexingServer.cpp lines 936-975): insert the fd into clients_ and call
incrementConnections once. -/
def handleNewConnection (s : ServerConnState) (fd : Int) : ServerConnState :=
  { clients := fd :: s.clients, metrics := incrementConnections s.metrics }

/-- MultiplexingServer::closeClient (MultiplexingServer.cpp lines 1030-1062):
a no-op when the fd is no longer in clients_ (already closed); otherwise
erase it and call decrementConnections once. -/
def closeClient (s : ServerConnState) (fd : Int) : ServerConnState :=
  if fd ∈ s.clients then
    { clients := s.clients.erase fd, metrics := decrementConnections s.metrics }
  else s

/-- States reachable from server start (both counters zero, no clients) under
accepts and closes.  An accept always carries a fresh fd: the kernel returns
a descriptor that is not currently open, and every fd removed from clients_
is closed first. -/
inductive ReachableServer : ServerConnState → Prop
  | init : ReachableServer ⟨[], ⟨0, 0⟩⟩
  | accept (s : ServerConnState) (fd : Int) (h : fd ∉ s.clients) :
      ReachableServer s → ReachableServer (handleNewConnection s fd)
  | close (s : ServerConnState) (fd : Int) :
      ReachableServer s → ReachableServer (closeClient s fd)

/-!
Router: the POST /process branch of ClientConnection::handleHttpRequest
(MultiplexingServer.cpp lines 629-671), the branch taken exactly when
method == "POST" and path == "/process".
-/

/-- The Metrics request counters touched by the POST /process branch
(Metrics.h; all atomic longs).  The duration gauges and histogram are
floating point and not modelled. -/
structure MetricsCtr where
  requests_total : Int
  requests_successful : Int
  requests_failed : Int
  bytes_received : Int
  bytes_sent : Int
deriving DecidableEq

def emptyBodyJson : String :=
  "\x7b\"error\": \"Empty request body\", \"success\": false\x7d"

/-- The POST /process branch of handleHttpRequest: count the request and its
bytes; an empty body yields a 400 with the failure counted in Metrics;
otherwise run the request processor and wrap its (success or error) document
in a 200 response, counting a Metrics success either way.  bodyEmpty and o
both describe the body string; processRequest is total in the model, so the
catch / 500 arm of the source is unreachable here. -/
def handleProcessPost (hs : HandlerState) (mc : MetricsCtr) (bodyEmpty : Bool)
    (bodyBytes : Nat) (o : ParseOutcome) : HandlerState × MetricsCtr × String :=
  let mc1 := { mc with requests_total := mc.requests_total + 1,
                       bytes_received := mc.bytes_received + bodyBytes }
  if bodyEmpty then
    (hs, { mc1 with requests_failed := mc1.requests_failed + 1 },
     createHttpResponse emptyBodyJson "application/json" 400)
  else
    let r := processRequest hs bodyEmpty o
    let json_response := render r.2
    (r.1,
     { mc1 with requests_successful := mc1.requests_successful + 1,
                bytes_sent := mc1.bytes_sent + json_response.utf8ByteSize },
     createHttpResponse json_response "application/json" 200)

/-!
Helper lemmas about the request processor.
-/

theorem getClientNumbersSum_mapAdd (m : List (String × Int)) (k : String) (v : Int) :
    getClientNumbersSum (mapAdd m k v) k = getClientNumbersSum m k + v := by
  induction m with
  | nil => simp [mapAdd, getClientNumbersSum]
  | cons p rest ih =>
    obtain ⟨k', v'⟩ := p
    by_cases h : k' = k
    · simp [mapAdd, getClientNumbersSum, h]
    · simp [mapAdd, getClientNumbersSum, h, ih]

theorem getClientNumbersSum_absent {m : List (String × Int)} {k : String}
    (h : ∀ p ∈ m, p.1 ≠ k) : getClientNumbersSum m k = 0 := by
  induction m with
  | nil => rfl
  | cons p rest ih =>
    obtain ⟨k', v'⟩ := p
    have hk : k' ≠ k := h (k', v') (by simp)
    simp only [getClientNumbersSum, if_neg hk]
    exact ih fun q hq => h q (by simp [hq])

theorem parseJson_ok_fields {d : JDoc} {u : UserData}
    (h : parseJson false (.obj d) = .ok u) :
    getField d "id" = some (.jint u.id) ∧
    getField d "name" = some (.jstr u.name) ∧
    getField d "phone" = some (.jstr u.phone) ∧
    getField d "number" = some (.jint u.number) := by
  unfold parseJson at h
  simp only [Bool.false_eq_true, if_false] at h
  repeat' split at h
  any_goals exact (Except.noConfusion h)
  injection h with h2
  subst h2
  refine ⟨?_, ?_, ?_, ?_⟩ <;> assumption

theorem processRequestInternal_error_shape {st : HandlerState} {e : Bool}
    {o : ParseOutcome} {msg : String} (h : parseJson e o = .error msg) :
    processRequestInternal st e o =
      ({ st with requests_processed := st.requests_processed + 1,
                 failed_requests := st.failed_requests + 1 },
       generateErrorResponse msg) := by
  simp [processRequestInternal, h]

theorem processRequestInternal_invalid_shape {st : HandlerState} {e : Bool}
    {o : ParseOutcome} {u : UserData} (h : parseJson e o = .ok u)
    (hv : validateUserData u = false) :
    processRequestInternal st e o =
      ({ st with requests_processed := st.requests_processed + 1,
                 failed_requests := st.failed_requests + 1 },
       generateErrorResponse "Invalid user data") := by
  simp [processRequestInternal, h, hv]

theorem validateUserData_false {u : UserData}
    (h : u.name = "" ∨ u.phone = "" ∨ u.id < 0) : validateUserData u = false := by
  unfold validateUserData
  rcases h with h | h | h <;> simp [h]

/-- C1: for every JSON input parsing to an object with an integer id at least
0, non-empty string name and phone, and integer number k, processRequest
returns the response document with the same id, name and phone, number
k + 1, and success true; total_numbers_sum_ grows by exactly k and the
client_numbers_sum_ entry for "user_" + id grows by exactly k. -/
theorem C1_process_valid (st : HandlerState) (d : JDoc) (i k : Int)
    (nm ph : String)
    (hid : getField d "id" = some (.jint i)) (hid0 : 0 ≤ i)
    (hnm : getField d "name" = some (.jstr nm)) (hnm0 : nm ≠ "")
    (hph : getField d "phone" = some (.jstr ph)) (hph0 : ph ≠ "")
    (hnum : getField d "number" = some (.jint k)) :
    processRequest st false (.obj d) =
      ({ st with
          requests_processed := st.requests_processed + 1,
          successful_requests := st.successful_requests + 1,
          total_numbers_sum := st.total_numbers_sum + k,
          client_numbers_sum :=
            mapAdd st.client_numbers_sum ("user_" ++ toString i) k },
       [("id", .rint i), ("name", .rstr nm), ("phone", .rstr ph),
        ("number", .rint (k + 1)), ("success", .rbool true)]) ∧
    getClientNumbersSum
        (mapAdd st.client_numbers_sum ("user_" ++ toString i) k)
        ("user_" ++ toString i) =
      getClientNumbersSum st.client_numbers_sum ("user_" ++ toString i) + k := by
  have hok : parseJson false (.obj d) = .ok ⟨i, nm, ph, k⟩ := by
    unfold parseJson
    simp [hid, hnm, hph, hnum]
  refine ⟨?_, getClientNumbersSum_mapAdd _ _ _⟩
  have hv : validateUserData ⟨i, nm, ph, k⟩ = true := by
    unfold validateUserData
    simp [hnm0, hph0, not_lt.mpr hid0]
  simp [processRequest, processRequestInternal, hok, hv, increase,
    generateJsonResponse]

/-- Witness for C1 at the request of scenario S2:
id 123, name "Test User", phone "+1234567890", number 42. -/
theorem C1_process_valid_witness :
    processRequest ⟨0, 0, 0, 0, []⟩ false
        (.obj ⟨[("id", .jint 123), ("name", .jstr "Test User"),
                ("phone", .jstr "+1234567890"), ("number", .jint 42)]⟩) =
      ({ requests_processed := 1, successful_requests := 1, failed_requests := 0,
         total_numbers_sum := 0 + 42,
         client_numbers_sum := mapAdd [] ("user_" ++ toString (123 : Int)) 42 },
       [("id", .rint 123), ("name", .rstr "Test User"),
        ("phone", .rstr "+1234567890"), ("number", .rint (42 + 1)),
        ("success", .rbool true)]) ∧
    getClientNumbersSum (mapAdd [] ("user_" ++ toString (123 : Int)) 42)
        ("user_" ++ toString (123 : Int)) =
      getClientNumbersSum [] ("user_" ++ toString (123 : Int)) + 42 :=
  C1_process_valid ⟨0, 0, 0, 0, []⟩
    ⟨[("id", .jint 123), ("name", .jstr "Test User"),
      ("phone", .jstr "+1234567890"), ("number", .jint 42)]⟩
    123 42 "Test User" "+1234567890"
    (by decide) (by decide) (by decide) (by decide) (by decide) (by decide)
    (by decide)

/-- The invalid-document cases enumerated by claim C2 for an object input:
some required member is missing or wrongly typed, or the id is negative, or
name or phone is the empty string. -/
def invalidDocFields (d : JDoc) : Prop :=
  (¬ ∃ n, getField d "id" = some (.jint n)) ∨
  (¬ ∃ s, getField d "name" = some (.jstr s)) ∨
  (¬ ∃ s, getField d "phone" = some (.jstr s)) ∨
  (¬ ∃ n, getField d "number" = some (.jint n)) ∨
  (∃ n, getField d "id" = some (.jint n) ∧ n < 0) ∨
  getField d "name" = some (.jstr "") ∨
  getField d "phone" = some (.jstr "")

/-- The invalid inputs enumerated by claim C2: empty body, unparseable body,
or an object with a missing / wrong-typed / empty-string / negative-id
field. -/
def invalidProcessInput (inputEmpty : Bool) (o : ParseOutcome) : Prop :=
  inputEmpty = true ∨ (∃ msg, o = .parseErr msg) ∨
  (∃ d, o = .obj d ∧ invalidDocFields d)

theorem processRequestInternal_invalid_obj (st : HandlerState) (d : JDoc)
    (h : invalidDocFields d) :
    ∃ msg, processRequestInternal st false (.obj d) =
      ({ st with requests_processed := st.requests_processed + 1,
                 failed_requests := st.failed_requests + 1 },
       generateErrorResponse msg) := by
  cases hp : parseJson false (.obj d) with
  | error msg => exact ⟨msg, processRequestInternal_error_shape hp⟩
  | ok u =>
    obtain ⟨h1, h2, h3, h4⟩ := parseJson_ok_fields hp
    refine ⟨"Invalid user data", processRequestInternal_invalid_shape hp ?_⟩
    apply validateUserData_false
    rcases h with h | h | h | h | ⟨n, hn, hneg⟩ | h | h
    · exact absurd ⟨u.id, h1⟩ h
    · exact absurd ⟨u.name, h2⟩ h
    · exact absurd ⟨u.phone, h3⟩ h
    · exact absurd ⟨u.number, h4⟩ h
    · rw [h1] at hn
      simp only [Option.some.injEq, JMember.jint.injEq] at hn
      right; right; omega
    · rw [h2] at h
      simp only [Option.some.injEq, JMember.jstr.injEq] at h
      left; exact h
    · rw [h3] at h
      simp only [Option.some.injEq, JMember.jstr.injEq] at h
      right; left; exact h

theorem errorResponse_success_false (msg : String) :
    lookupRField (generateErrorResponse msg) "success" = some (.rbool false) := by
  simp [generateErrorResponse, lookupRField]

/-- C2: for every invalid input (empty, unparseable, missing or wrong-typed
required field, negative id, or empty name / phone), processRequest returns
the error document with success false and an error message, leaves
total_numbers_sum_ and client_numbers_sum_ unchanged, and increases
failed_requests_ by exactly one. -/
theorem C2_process_invalid (st : HandlerState) (e : Bool) (o : ParseOutcome)
    (h : invalidProcessInput e o) :
    ∃ msg,
      processRequest st e o =
        ({ st with requests_processed := st.requests_processed + 1,
                   failed_requests := st.failed_requests + 1 },
         generateErrorResponse msg) ∧
      lookupRField (generateErrorResponse msg) "success" = some (.rbool false) := by
  have key : ∃ msg, processRequestInternal st e o =
      ({ st with requests_processed := st.requests_processed + 1,
                 failed_requests := st.failed_requests + 1 },
       generateErrorResponse msg) := by
    rcases h with h | ⟨msg, rfl⟩ | ⟨d, rfl, hd⟩
    · subst h
      exact ⟨"Empty JSON input", processRequestInternal_error_shape rfl⟩
    · cases e
      · exact ⟨msg, processRequestInternal_error_shape rfl⟩
      · exact ⟨"Empty JSON input", processRequestInternal_error_shape rfl⟩
    · cases e
      · exact processRequestInternal_invalid_obj st d hd
      · exact ⟨"Empty JSON input", processRequestInternal_error_shape rfl⟩
  obtain ⟨msg, hm⟩ := key
  exact ⟨msg, hm, errorResponse_success_false msg⟩

/-- Witness for C2 at the request of scenario S3: an object missing the
number member. -/
theorem C2_process_invalid_witness :
    ∃ msg,
      processRequest ⟨0, 0, 0, 0, []⟩ false
          (.obj ⟨[("id", .jint 1), ("name", .jstr "x"), ("phone", .jstr "y")]⟩) =
        ({ requests_processed := 1, successful_requests := 0,
           failed_requests := 1, total_numbers_sum := 0,
           client_numbers_sum := [] },
         generateErrorResponse msg) ∧
      lookupRField (generateErrorResponse msg) "success" = some (.rbool false) :=
  C2_process_invalid ⟨0, 0, 0, 0, []⟩ false
    (.obj ⟨[("id", .jint 1), ("name", .jstr "x"), ("phone", .jstr "y")]⟩)
    (Or.inr (Or.inr ⟨_, rfl, Or.inr (Or.inr (Or.inr (Or.inl (by
      rintro ⟨n, hn⟩
      simp [getField, lookupField] at hn))))⟩))

/-- C9: every POST /process request whose body parses to an object that fails
the field checks gets an HTTP response with status 200 whose JSON body has
success false, and RequestHandler::failed_requests_ increases by one. -/
theorem C9_process_invalid_http (hs : HandlerState) (mc : MetricsCtr)
    (bodyBytes : Nat) (d : JDoc) (h : invalidDocFields d) :
    ∃ msg,
      (handleProcessPost hs mc false bodyBytes (.obj d)).2.2 =
        createHttpResponse (render (generateErrorResponse msg))
          "application/json" 200 ∧
      lookupRField (generateErrorResponse msg) "success" = some (.rbool false) ∧
      (handleProcessPost hs mc false bodyBytes (.obj d)).1.failed_requests =
        hs.failed_requests + 1 := by
  obtain ⟨msg, hm⟩ := processRequestInternal_invalid_obj hs d h
  refine ⟨msg, ?_, errorResponse_success_false msg, ?_⟩ <;>
    simp [handleProcessPost, processRequest, hm]

/-- Witness for C9 at the same missing-number object. -/
theorem C9_process_invalid_http_witness :
    ∃ msg,
      (handleProcessPost ⟨0, 0, 0, 0, []⟩ ⟨0, 0, 0, 0, 0⟩ false 34
          (.obj ⟨[("id", .jint 1), ("name", .jstr "x"),
                  ("phone", .jstr "y")]⟩)).2.2 =
        createHttpResponse (render (generateErrorResponse msg))
          "application/json" 200 ∧
      lookupRField (generateErrorResponse msg) "success" = some (.rbool false) ∧
      (handleProcessPost ⟨0, 0, 0, 0, []⟩ ⟨0, 0, 0, 0, 0⟩ false 34
          (.obj ⟨[("id", .jint 1), ("name", .jstr "x"),
                  ("phone", .jstr "y")]⟩)).1.failed_requests = 0 + 1 :=
  C9_process_invalid_http ⟨0, 0, 0, 0, []⟩ ⟨0, 0, 0, 0, 0⟩ 34
    ⟨[("id", .jint 1), ("name", .jstr "x"), ("phone", .jstr "y")]⟩
    (Or.inr (Or.inr (Or.inr (Or.inl (by
      rintro ⟨n, hn⟩
      simp [getField, lookupField] at hn)))))

/-- C10: getClientNumbersSum on a client id that was never recorded returns 0
and leaves the per-client map unchanged (the lookup is a find, not an
inserting operator[]). -/
theorem C10_client_sum_absent (m : List (String × Int)) (k : String)
    (h : ∀ p ∈ m, p.1 ≠ k) :
    (getClientNumbersSumCall m k).1 = 0 ∧ (getClientNumbersSumCall m k).2 = m :=
  ⟨getClientNumbersSum_absent h, rfl⟩

/-- Witness for C10: a one-entry map queried for a different key. -/
theorem C10_client_sum_absent_witness :
    (getClientNumbersSumCall [("user_123", 42)] "user_7").1 = 0 ∧
    (getClientNumbersSumCall [("user_123", 42)] "user_7").2 =
      [("user_123", 42)] :=
  C10_client_sum_absent [("user_123", 42)] "user_7" (by decide)

/-- The reason-phrase table stated by claim C7. -/
def reasonPhrase (status_code : Int) : String :=
  if status_code = 200 then "OK"
  else if status_code = 400 then "Bad Request"
  else if status_code = 404 then "Not Found"
  else if status_code = 500 then "Internal Server Error"
  else ""

/-- C7: for every body, content type and status code among 200, 400, 404 and
500, createHttpResponse is exactly the claimed status line, the Content-Type
header, a Content-Length equal to the byte length of the body, the keep-alive
and CORS headers, a blank line, and the body. -/
theorem C7_http_response_format (content content_type : String)
    (status_code : Int)
    (h : status_code = 200 ∨ status_code = 400 ∨ status_code = 404 ∨
         status_code = 500) :
    createHttpResponse content content_type status_code =
      "HTTP/1.1 " ++ toString status_code ++ " " ++ reasonPhrase status_code ++
      "\r\n" ++
      "Content-Type: " ++ content_type ++ "\r\n" ++
      "Content-Length: " ++ toString content.utf8ByteSize ++ "\r\n" ++
      "Connection: keep-alive\r\n" ++
      "Keep-Alive: timeout=30, max=1000\r\n" ++
      "Access-Control-Allow-Origin: *\r\n" ++
      "Access-Control-Allow-Methods: GET, POST, OPTIONS\r\n" ++
      "Access-Control-Allow-Headers: Content-Type\r\n" ++
      "\r\n" ++
      content := by
  rcases h with rfl | rfl | rfl | rfl <;> rfl

/-- Witness for C7 at a 404 response. -/
theorem C7_http_response_format_witness :
    createHttpResponse "abc" "text/plain" 404 =
      "HTTP/1.1 " ++ toString (404 : Int) ++ " " ++ reasonPhrase 404 ++
      "\r\n" ++
      "Content-Type: " ++ "text/plain" ++ "\r\n" ++
      "Content-Length: " ++ toString ("abc" : String).utf8ByteSize ++ "\r\n" ++
      "Connection: keep-alive\r\n" ++
      "Keep-Alive: timeout=30, max=1000\r\n" ++
      "Access-Control-Allow-Origin: *\r\n" ++
      "Access-Control-Allow-Methods: GET, POST, OPTIONS\r\n" ++
      "Access-Control-Allow-Headers: Content-Type\r\n" ++
      "\r\n" ++
      "abc" :=
  C7_http_response_format "abc" "text/plain" 404
    (Or.inr (Or.inr (Or.inl rfl)))

theorem sendResponse_wouldBlock_eq (c : ConnState) (response : List Char)
    (h : c.writeBuffer ++ response ≠ []) :
    sendResponse c response .wouldBlock = ⟨c.writeBuffer ++ response, c.active⟩ := by
  unfold sendResponse
  simp [h]

/-- C5 counterexample: a 65537-byte response appended to an empty write
buffer with the inline send would-blocking leaves the buffer above
max_write_buffer_size with the connection still active, refuting the claim
that sendResponse closes the connection when the cap would be exceeded
(no capacity check exists in MultiplexingServer.cpp lines 186-253). -/
theorem C5_backpressure_counterexample :
    maxWriteBufferSize <
      (sendResponse ⟨[], true⟩ (List.replicate 65537 'a')
          .wouldBlock).writeBuffer.length ∧
    (sendResponse ⟨[], true⟩ (List.replicate 65537 'a')
        .wouldBlock).active = true := by
  have hne : ((⟨[], true⟩ : ConnState).writeBuffer ++
      List.replicate 65537 'a') ≠ [] := by
    intro hcontra
    have hlen := congrArg List.length hcontra
    rw [List.length_append, List.length_replicate] at hlen
    simp at hlen
  rw [sendResponse_wouldBlock_eq _ _ hne]
  constructor
  · show maxWriteBufferSize < (([] : List Char) ++ List.replicate 65537 'a').length
    rw [List.nil_append, List.length_replicate]
    decide
  · rfl

/-- C5 amended: sendResponse performs no capacity check at all.  The response
is always appended; on would-block everything is kept and the active flag is
untouched, on a partial send only the sent prefix is dropped and the active
flag is untouched, and the flag is cleared only by a fatal inline-send
error.  In particular the write buffer can exceed max_write_buffer_size on a
connection that stays active. -/
theorem C5_amended_no_capacity_check (c : ConnState) (response : List Char)
    (n : Nat) :
    (sendResponse c response .wouldBlock).writeBuffer =
      c.writeBuffer ++ response ∧
    (sendResponse c response .wouldBlock).active = c.active ∧
    (sendResponse c response (.sent n)).writeBuffer =
      (c.writeBuffer ++ response).drop n ∧
    (sendResponse c response (.sent n)).active = c.active ∧
    (c.writeBuffer ++ response ≠ [] →
      (sendResponse c response .fatal).active = false) := by
  unfold sendResponse
  by_cases h : c.writeBuffer ++ response = []
  · refine ⟨by simp [h], by simp [h], by simp [h], by simp [h],
      fun hne => absurd h hne⟩
  · refine ⟨by simp [h], by simp [h], by simp [h], by simp [h],
      fun _ => by simp [h]⟩

/-- Witness for C5 amended at a one-byte response. -/
theorem C5_amended_no_capacity_check_witness :
    (sendResponse ⟨[], true⟩ ['a'] .wouldBlock).writeBuffer = [] ++ ['a'] ∧
    (sendResponse ⟨[], true⟩ ['a'] .wouldBlock).active = true ∧
    (sendResponse ⟨[], true⟩ ['a'] (.sent 1)).writeBuffer =
      (([] : List Char) ++ ['a']).drop 1 ∧
    (sendResponse ⟨[], true⟩ ['a'] (.sent 1)).active = true ∧
    (([] : List Char) ++ ['a'] ≠ [] →
      (sendResponse ⟨[], true⟩ ['a'] .fatal).active = false) :=
  C5_amended_no_capacity_check ⟨[], true⟩ ['a'] 1

/-- C6 counterexample: sendResponse on a Closed connection (active already
false; the inline send on the closed fd fails fatally) changes the write
buffer from empty to the appended response, refuting the claim that the
append is a no-op: sendResponse never consults the active flag. -/
theorem C6_closed_append_counterexample :
    (sendResponse ⟨[], false⟩ ['x'] .fatal).writeBuffer = ['x'] ∧
    (['x'] : List Char) ≠ [] := by
  constructor
  · rfl
  · decide

/-- C6 amended: calling sendResponse on a Closed connection appends the
response to the write buffer (the flag is never checked); the bytes are
simply never transmitted because the inline send fails and the flag stays
false. -/
theorem C6_amended_append_when_closed (c : ConnState) (response : List Char)
    (h : c.active = false) :
    (sendResponse c response .fatal).writeBuffer = c.writeBuffer ++ response ∧
    (sendResponse c response .fatal).active = false := by
  unfold sendResponse
  by_cases hw : c.writeBuffer ++ response = []
  · exact ⟨by simp [hw], by simp [hw, h]⟩
  · exact ⟨by simp [hw], by simp [hw]⟩

/-- Witness for C6 amended. -/
theorem C6_amended_append_when_closed_witness :
    (sendResponse ⟨['q'], false⟩ ['x'] .fatal).writeBuffer = ['q'] ++ ['x'] ∧
    (sendResponse ⟨['q'], false⟩ ['x'] .fatal).active = false :=
  C6_amended_append_when_closed ⟨['q'], false⟩ ['x'] rfl

/-- In every reachable server state the active-connections gauge equals the
number of entries of the fd-to-connection map. -/
theorem reachable_active_eq_len {s : ServerConnState} (h : ReachableServer s) :
    s.metrics.active_connections = (s.clients.length : Int) := by
  induction h with
  | init => rfl
  | accept s fd hfd _ ih =>
    simp [handleNewConnection, incrementConnections, ih]
  | close s fd _ ih =>
    unfold closeClient
    by_cases hm : fd ∈ s.clients
    · have hpos : 0 < s.clients.length :=
        List.length_pos.mpr (List.ne_nil_of_mem hm)
      have hact : 0 < s.metrics.active_connections := by
        rw [ih]; exact_mod_cast hpos
      simp only [hm, if_pos, decrementConnections, if_pos hact]
      rw [List.length_erase_of_mem hm, ih]
      omega
    · simp [hm, ih]

/-- C8: every accept increments connections_total and active_connections by
exactly one; every close of a live fd decrements active_connections by
exactly one; in every reachable state the gauge is non-negative, and
decrementConnections never drives it negative. -/
theorem C8_connection_counters :
    (∀ (s : ServerConnState) (fd : Int),
      (handleNewConnection s fd).metrics.connections_total =
        s.metrics.connections_total + 1 ∧
      (handleNewConnection s fd).metrics.active_connections =
        s.metrics.active_connections + 1) ∧
    (∀ (s : ServerConnState) (fd : Int), ReachableServer s → fd ∈ s.clients →
      (closeClient s fd).metrics.active_connections =
        s.metrics.active_connections - 1) ∧
    (∀ s : ServerConnState, ReachableServer s →
      0 ≤ s.metrics.active_connections) ∧
    (∀ m : MetricsConn, 0 ≤ m.active_connections →
      0 ≤ (decrementConnections m).active_connections) := by
  refine ⟨fun s fd => ⟨rfl, rfl⟩, fun s fd hr hm => ?_, fun s hr => ?_,
    fun m hm => ?_⟩
  · have hpos : 0 < s.clients.length :=
      List.length_pos.mpr (List.ne_nil_of_mem hm)
    have hact : 0 < s.metrics.active_connections := by
      rw [reachable_active_eq_len hr]; exact_mod_cast hpos
    simp [closeClient, hm, decrementConnections, hact]
  · rw [reachable_active_eq_len hr]
    exact Int.ofNat_nonneg _
  · unfold decrementConnections
    split <;> simp_all
    omega

/-- Witness for C8: accept fd 3 into the initial state, then close it. -/
theorem C8_connection_counters_witness :
    ((handleNewConnection ⟨[], ⟨0, 0⟩⟩ 3).metrics.connections_total = 0 + 1 ∧
     (handleNewConnection ⟨[], ⟨0, 0⟩⟩ 3).metrics.active_connections = 0 + 1) ∧
    (closeClient ⟨[3], ⟨1, 1⟩⟩ 3).metrics.active_connections = 1 - 1 ∧
    (0 : Int) ≤ (MetricsConn.mk 1 1).active_connections ∧
    (0 : Int) ≤ (decrementConnections ⟨1, 1⟩).active_connections := by
  have hreach : ReachableServer ⟨[3], ⟨1, 1⟩⟩ :=
    ReachableServer.accept ⟨[], ⟨0, 0⟩⟩ 3 (by simp) ReachableServer.init
  exact ⟨C8_connection_counters.1 ⟨[], ⟨0, 0⟩⟩ 3,
    C8_connection_counters.2.1 ⟨[3], ⟨1, 1⟩⟩ 3 hreach (by simp),
    C8_connection_counters.2.2.1 ⟨[3], ⟨1, 1⟩⟩ hreach,
    C8_connection_counters.2.2.2 ⟨1, 1⟩ (by simp)⟩

/-!
Framing claims: C3 and C4.
-/

end TestServer
